import Mathlib

/-!
Shallow embedding of the hierarchical finite-state-machine engine in
`src/state_machine.c` (redocCheng/state_machine).

States are caller-built records linked by pointers in the C source; here the
state graph is an arena `Env α`: a list of `State α` records indexed by
`StateId = Nat`, with every C pointer field rendered as `Option StateId`
(`none` = NULL).  The opaque `void *` payloads (state data, event data, guard
conditions) are a type parameter `α`.  Function-pointer callbacks do not
mutate the engine, so each callback slot is modelled by its presence (a
`Bool`, `none`/`some` for NULL) together with a trace of `Call` records that
the dispatch functions emit exactly where the C code invokes the callback,
recording the arguments the C code passes.

Partiality of the C code (NULL-pointer dereference, and non-termination on
cyclic parent or entry chains, which the engine explicitly does not detect)
is modelled by `Option`-valued results: `none` means the C execution is
undefined or diverges.  Chain walks take fuel; the public entry points use
the canonical fuel `env.length + 1`, which suffices for every acyclic chain
over the arena.
-/

namespace StateMachine

/-- Index of a state in the arena (stands for a `struct state *`). -/
abbrev StateId := Nat

/-- The C `struct event`: a user-defined type tag plus an opaque payload. -/
structure Event (α : Type) where
  type : Int
  data : α
deriving DecidableEq, Repr

/-- The C `struct transition`.  Here `guard` is the optional predicate
`bool (*guard)(void *condition, struct event *event)`; `action` records
whether the optional transition action pointer is non-NULL; `state_next`
is the target pointer (NULL allowed, detected at dispatch time). -/
structure Transition (α : Type) where
  event_type : Int
  condition : α
  guard : Option (α → Event α → Bool)
  action : Bool
  state_next : Option StateId

/-- The C `struct state`.  Here `transitions` is the `transitions` array together with
`transition_nums` (its length); `action_entry` / `action_exti` record whether
the corresponding callback pointers are non-NULL. -/
structure State (α : Type) where
  state_parent : Option StateId
  state_entry : Option StateId
  transitions : List (Transition α)
  data : α
  action_entry : Bool
  action_exti : Bool

/-- The C `struct state_machine`: the three state pointers. -/
structure Machine where
  state_current : Option StateId
  state_previous : Option StateId
  state_error : Option StateId
deriving DecidableEq, Repr

/-- The arena holding every state record of the caller-built graph. -/
abbrev Env (α : Type) := List (State α)

/-- Dereference a state pointer: `none` on a dangling index (a pointer the
C program could not legally hold). -/
def getState (env : Env α) (i : StateId) : Option (State α) :=
  env[i]?

/-- One recorded callback invocation, with the arguments the C code passes. -/
inductive Call (α : Type) where
  /-- Invocation `state->action_exti( state->data, event )` on state `s`. -/
  | exitCall (s : StateId) (data : α) (ev : Event α)
  /-- Invocation `transition->action( state_current->data, event, state_next->data )`. -/
  | actionCall (curData : α) (ev : Event α) (nextData : α)
  /-- Invocation `state->action_entry( state->data, event )` on state `s`. -/
  | entryCall (s : StateId) (data : α) (ev : Event α)
deriving DecidableEq, Repr

/-- Trace of callback invocations, in invocation order. -/
abbrev Trace (α : Type) := List (Call α)

/-- The C `enum statem_handle_event_return_vals`. -/
inductive HandleResult where
  | errArg            -- STATEM_ERR_ARG = -2
  | errStateReached   -- STATEM_ERR_STATE_RECHED
  | stateChanged      -- STATEM_STATE_CHANGED
  | loopSelf          -- STATEM_STATE_LOOPSELF
  | noChange          -- STATEM_STATE_NOCHANGE
  | finalStateReached -- STATEM_FINAL_STATE_RECHED
deriving DecidableEq, Repr

/-- The numeric values the C enum assigns, starting at `STATEM_ERR_ARG = -2`. -/
def HandleResult.toInt : HandleResult → Int
  | .errArg => -2
  | .errStateReached => -1
  | .stateChanged => 0
  | .loopSelf => 1
  | .noChange => 2
  | .finalStateReached => 3

/-- Function `statem_init`: NULL machine is rejected with `-1`; otherwise the three
pointers are set.  The empty trace records that no callback is invoked. -/
def statem_init (fsm : Option Machine) (state_init : Option StateId)
    (state_error : Option StateId) : Int × Option Machine × Trace α :=
  match fsm with
  | none => (-1, none, [])
  | some _ =>
    (0, some { state_current := state_init
               state_previous := none
               state_error := state_error }, [])

/-- The scan of `get_transition` over one state's transition table: the first entry
whose `event_type` equals the event's type and whose guard is NULL or
returns true on `(condition, event)`; later entries are only reached when
an earlier same-type entry has a guard that returns false. -/
def find_transition (ts : List (Transition α)) (ev : Event α) :
    Option (Transition α) :=
  match ts with
  | [] => none
  | t :: rest =>
    if t.event_type = ev.type then
      match t.guard with
      | none => some t
      | some g => if g t.condition ev then some t else find_transition rest ev
    else find_transition rest ev

/-- Function `get_transition( fsm, state, event )`: NULL state yields no transition
(inner `none`); a dangling pointer is undefined (outer `none`). -/
def get_transition (env : Env α) (state : Option StateId) (ev : Event α) :
    Option (Option (Transition α)) :=
  match state with
  | none => some none
  | some i =>
    match getState env i with
    | none => none
    | some st => some (find_transition st.transitions ev)

/-- Function `go_to_state_error`: previous := current, current := error; then the
(new) current state's entry action is invoked if both the state and the
callback are non-NULL. -/
def go_to_state_error (env : Env α) (fsm : Machine) (ev : Event α) :
    Option (Machine × Trace α) :=
  let fsm' : Machine := { fsm with state_previous := fsm.state_current
                                   state_current := fsm.state_error }
  match fsm.state_error with
  | none => some (fsm', [])
  | some i =>
    match getState env i with
    | none => none
    | some st =>
      some (fsm', if st.action_entry then [Call.entryCall i st.data ev] else [])

/-- The entry-chain descent `while ( state_next->state_entry ) state_next =
state_next->state_entry;` with explicit fuel: `none` on a dangling pointer or
when the chain outruns the fuel (a cyclic chain makes the C loop diverge). -/
def descend (env : Env α) : Nat → StateId → Option StateId
  | fuel, s =>
    match getState env s with
    | none => none
    | some st =>
      match st.state_entry with
      | none => some s
      | some e =>
        match fuel with
        | 0 => none
        | fuel' + 1 => descend env fuel' e

/-- Entry-chain descent with the canonical fuel: enough for every acyclic
chain over the arena, since such a chain visits each state at most once. -/
def descendFull (env : Env α) (s : StateId) : Option StateId :=
  descend env env.length s

/-- The body of `statem_handle_event` once a transition has matched:
null `state_next` forces the error state; otherwise the target is resolved
by entry-chain descent and the exit / transition / entry callbacks run under
the C code's conditions, then current/previous are updated and the outcome
is classified.  `cur`/`curSt` are `fsm->state_current` and its record. -/
def perform_transition (env : Env α) (fsm : Machine) (cur : StateId)
    (curSt : State α) (ev : Event α) (t : Transition α) :
    Option (HandleResult × Machine × Trace α) :=
  match t.state_next with
  | none =>
    (go_to_state_error env fsm ev).map
      (fun p => (HandleResult.errStateReached, p.1, p.2))
  | some nxt =>
    match descendFull env nxt with
    | none => none
    | some tgt =>
      match getState env tgt with
      | none => none
      | some tgtSt =>
        let exitCalls : Trace α :=
          if some tgt ≠ fsm.state_current ∧ curSt.action_exti then
            [Call.exitCall cur curSt.data ev] else []
        let actionCalls : Trace α :=
          if t.action then
            [Call.actionCall curSt.data ev tgtSt.data] else []
        let entryCalls : Trace α :=
          if some tgt ≠ fsm.state_current ∧ tgtSt.action_entry then
            [Call.entryCall tgt tgtSt.data ev] else []
        let fsm' : Machine := { fsm with state_previous := fsm.state_current
                                         state_current := some tgt }
        let trace := exitCalls ++ actionCalls ++ entryCalls
        if fsm'.state_current = fsm'.state_previous then
          some (HandleResult.loopSelf, fsm', trace)
        else if fsm'.state_current = fsm'.state_error then
          some (HandleResult.errStateReached, fsm', trace)
        else if tgtSt.transitions.length = 0 ∧ tgtSt.state_parent = none then
          some (HandleResult.finalStateReached, fsm', trace)
        else
          some (HandleResult.stateChanged, fsm', trace)

/-- The `do { ... } while ( state_next )` lookup loop of
`statem_handle_event`: scan the table of the walk state `sn`; on no match
move to its parent (loop exit with "no change" when the parent is NULL);
on a match perform the transition. -/
def dispatchLoop (env : Env α) : Nat → Machine → StateId → State α →
    Event α → StateId → Option (HandleResult × Machine × Trace α)
  | 0, _, _, _, _, _ => none
  | fuel + 1, fsm, cur, curSt, ev, sn =>
    match get_transition env (some sn) ev with
    | none => none
    | some none =>
      match (getState env sn).bind State.state_parent with
      | none => some (HandleResult.noChange, fsm, [])
      | some p => dispatchLoop env fuel fsm cur curSt ev p
    | some (some t) => perform_transition env fsm cur curSt ev t

/-- Function `statem_handle_event` after the argument checks: NULL current state
forces the error state; a current state with no transitions and no parent
discards the event with "no change"; otherwise the lookup loop runs,
starting at the current state. -/
def handle_event_core (env : Env α) (fuel : Nat) (fsm : Machine)
    (ev : Event α) : Option (HandleResult × Machine × Trace α) :=
  match fsm.state_current with
  | none =>
    (go_to_state_error env fsm ev).map
      (fun p => (HandleResult.errStateReached, p.1, p.2))
  | some cur =>
    match getState env cur with
    | none => none
    | some curSt =>
      if curSt.transitions.length = 0 ∧ curSt.state_parent = none then
        some (HandleResult.noChange, fsm, [])
      else
        dispatchLoop env fuel fsm cur curSt ev cur

/-- Function `statem_handle_event`: NULL machine or event is an argument error; the
machine (when present) is returned alongside the classification and the
trace of callback invocations. -/
def statem_handle_event (env : Env α) (fsm : Option Machine)
    (ev : Option (Event α)) :
    Option (HandleResult × Option Machine × Trace α) :=
  match fsm, ev with
  | none, _ => some (HandleResult.errArg, none, [])
  | some m, none => some (HandleResult.errArg, some m, [])
  | some m, some e =>
    (handle_event_core env (env.length + 1) m e).map
      (fun p => (p.1, some p.2.1, p.2.2))

/-- Function `statem_stopped`: answers `-1` on a NULL machine, otherwise
`state_current->transition_nums == 0` — the current-state pointer is
dereferenced without a NULL check, so a machine whose current state is NULL
has undefined behaviour (`none`). -/
def statem_stopped (env : Env α) (fsm : Option Machine) : Option Int :=
  match fsm with
  | none => some (-1)
  | some m =>
    match m.state_current with
    | none => none
    | some i =>
      match getState env i with
      | none => none
      | some st => some (if st.transitions.length = 0 then 1 else 0)

/-- The search part of the lookup loop, in isolation: walk the parent chain
from `sn` scanning each table; `some none` = chain exhausted without a match,
`some (some (sn', t))` = first match `t` found at chain state `sn'`,
`none` = dangling pointer or fuel exhausted. -/
def searchChain (env : Env α) : Nat → Event α → StateId →
    Option (Option (StateId × Transition α))
  | 0, _, _ => none
  | fuel + 1, ev, sn =>
    match get_transition env (some sn) ev with
    | none => none
    | some none =>
      match (getState env sn).bind State.state_parent with
      | none => some none
      | some p => searchChain env fuel ev p
    | some (some t) => some (some (sn, t))

/-- The lookup loop is the search followed by either the "no change" exit or
the matched transition's performance. -/
theorem dispatchLoop_of_search (env : Env α) (fsm : Machine) (cur : StateId)
    (curSt : State α) (ev : Event α) :
    ∀ (fuel : Nat) (sn : StateId) (r : Option (StateId × Transition α)),
      searchChain env fuel ev sn = some r →
      dispatchLoop env fuel fsm cur curSt ev sn =
        match r with
        | none => some (HandleResult.noChange, fsm, [])
        | some (_, t) => perform_transition env fsm cur curSt ev t := by
  intro fuel
  induction fuel with
  | zero =>
    intro sn r h
    simp [searchChain] at h
  | succ n ih =>
    intro sn r h
    rw [searchChain] at h
    rw [dispatchLoop]
    cases hg : get_transition env (some sn) ev with
    | none => rw [hg] at h; exact absurd h (by simp)
    | some o =>
      rw [hg] at h
      cases o with
      | none =>
        cases hp : (getState env sn).bind State.state_parent with
        | none =>
          rw [hp] at h
          cases h
          rfl
        | some p =>
          rw [hp] at h
          exact ih p r h
      | some t =>
        cases h
        rfl

/-- On a machine with a valid current state, `statem_handle_event` is the
search outcome: "no change" when the chain had no match (this also covers the
early return on a terminal current state), otherwise the matched transition's
performance. -/
theorem handle_event_of_search (env : Env α) (fsm : Machine) (ev : Event α)
    (cur : StateId) (curSt : State α) (r : Option (StateId × Transition α))
    (hcur : fsm.state_current = some cur)
    (hget : getState env cur = some curSt)
    (hsearch : searchChain env (env.length + 1) ev cur = some r) :
    statem_handle_event env (some fsm) (some ev) =
      (match r with
        | none => some (HandleResult.noChange, fsm, ([] : Trace α))
        | some (_, t) => perform_transition env fsm cur curSt ev t).map
        (fun p : HandleResult × Machine × Trace α => (p.1, some p.2.1, p.2.2)) := by
  show (handle_event_core env (env.length + 1) fsm ev).map _ = _
  rw [handle_event_core]
  simp only [hcur, hget]
  by_cases hterm : curSt.transitions.length = 0 ∧ curSt.state_parent = none
  · have hR : r = none := by
      have hnil : curSt.transitions = [] := List.length_eq_zero.mp hterm.1
      rw [searchChain] at hsearch
      simp [get_transition, hget, hnil, find_transition, hterm.2] at hsearch
      exact hsearch.symm
    subst hR
    simp [hterm]
  · rw [if_neg hterm]
    rw [dispatchLoop_of_search env fsm cur curSt ev _ cur r hsearch]

/-! ### A concrete state graph, for evaluating the theorems

Arena layout: state 0 is a leaf with transitions exercising every dispatch
outcome; state 1 is a childless leaf inside group 2; state 2 is a group whose
entry chain is 2 → 3 → 1 and whose table holds the escalation target for its
children; state 4 is a final state; state 5 is the (terminal) error state. -/

/-- Event type 0 at state 0: plain transition to state 1. -/
def trW01 : Transition Nat :=
  { event_type := 0, condition := 0, guard := none, action := true,
    state_next := some 1 }

/-- Event type 1 at state 0: self-loop. -/
def trW00 : Transition Nat :=
  { event_type := 1, condition := 0, guard := none, action := true,
    state_next := some 0 }

/-- Event type 2 at state 0: transition into group 2 (resolved to leaf 1). -/
def trW02 : Transition Nat :=
  { event_type := 2, condition := 0, guard := none, action := true,
    state_next := some 2 }

/-- Event type 3 at state 0: malformed transition (NULL `state_next`). -/
def trWbad : Transition Nat :=
  { event_type := 3, condition := 0, guard := none, action := true,
    state_next := none }

/-- Event type 4 at state 0: transition to the final state 4. -/
def trW04 : Transition Nat :=
  { event_type := 4, condition := 0, guard := none, action := false,
    state_next := some 4 }

/-- Event type 6 at state 0: transition straight to the error state 5. -/
def trW05 : Transition Nat :=
  { event_type := 6, condition := 0, guard := none, action := false,
    state_next := some 5 }

/-- A guarded transition for event type 0: the guard accepts exactly when
the payload equals the condition value 5. -/
def trGuard : Transition Nat :=
  { event_type := 0, condition := 5,
    guard := some (fun c e => decide (c = e.data)), action := false,
    state_next := some 4 }

/-- Event type 5 at group 2: escalation target for its children. -/
def trW20 : Transition Nat :=
  { event_type := 5, condition := 0, guard := none, action := true,
    state_next := some 0 }

/-- State 0: root leaf holding the transitions above. -/
def stW0 : State Nat :=
  { state_parent := none, state_entry := none,
    transitions := [trW01, trW00, trW02, trWbad, trW04, trW05],
    data := 10, action_entry := true, action_exti := true }

/-- State 1: childless leaf whose parent is group 2. -/
def stW1 : State Nat :=
  { state_parent := some 2, state_entry := none, transitions := [],
    data := 11, action_entry := true, action_exti := true }

/-- State 2: group state, entry chain 2 → 3 → 1. -/
def stW2 : State Nat :=
  { state_parent := none, state_entry := some 3, transitions := [trW20],
    data := 12, action_entry := true, action_exti := false }

/-- State 3: intermediate group on the entry chain, entry 3 → 1. -/
def stW3 : State Nat :=
  { state_parent := some 2, state_entry := some 1, transitions := [],
    data := 13, action_entry := true, action_exti := false }

/-- State 4: final state (no transitions, no parent). -/
def stW4 : State Nat :=
  { state_parent := none, state_entry := none, transitions := [],
    data := 14, action_entry := true, action_exti := false }

/-- State 5: the error state, itself terminal. -/
def stW5 : State Nat :=
  { state_parent := none, state_entry := none, transitions := [],
    data := 15, action_entry := true, action_exti := false }

/-- The concrete arena. -/
def envW : Env Nat := [stW0, stW1, stW2, stW3, stW4, stW5]

/-- Machine resting at state 0, with state 5 configured as error state. -/
def mW : Machine :=
  { state_current := some 0, state_previous := none, state_error := some 5 }

/-- Machine resting at the childless-but-parented state 1. -/
def mW1 : Machine :=
  { state_current := some 1, state_previous := none, state_error := some 5 }

/-- Machine resting at the terminal error state 5. -/
def mW5 : Machine :=
  { state_current := some 5, state_previous := none, state_error := some 5 }

/-- Machine with a NULL current state (corrupted / never initialised). -/
def mWnull : Machine :=
  { state_current := none, state_previous := none, state_error := some 5 }

/-- Machine with NULL current state and no configured error state. -/
def mWnoerr : Machine :=
  { state_current := none, state_previous := none, state_error := none }

/-- A state whose record and NULL `state_entry` are known is a fixed point
of entry-chain descent, whatever the fuel. -/
theorem descend_fixpoint (env : Env α) (s : StateId) (st : State α)
    (hg : getState env s = some st) (he : st.state_entry = none) :
    ∀ fuel, descend env fuel s = some s := by
  intro fuel
  rw [descend]
  simp [hg, he]

/-- C7: entry-chain descent is idempotent — whenever descent from `s`
terminates (the chain is finite) it lands on a state with a null
`state_entry`, and descending again from that leaf (with any fuel, in
particular the canonical one) returns the same leaf. -/
theorem descend_idempotent (env : Env α) (fuel : Nat) (s t : StateId)
    (h : descend env fuel s = some t) :
    ∃ tSt, getState env t = some tSt ∧ tSt.state_entry = none ∧
      descendFull env t = some t ∧ ∀ fuel', descend env fuel' t = some t := by
  induction fuel generalizing s with
  | zero =>
    rw [descend] at h
    cases hg : getState env s with
    | none => simp [hg] at h
    | some st =>
      cases he : st.state_entry with
      | none =>
        simp [hg, he] at h
        subst h
        exact ⟨st, hg, he, descend_fixpoint env s st hg he env.length,
          descend_fixpoint env s st hg he⟩
      | some e => simp [hg, he] at h
  | succ n ih =>
    rw [descend] at h
    cases hg : getState env s with
    | none => simp [hg] at h
    | some st =>
      cases he : st.state_entry with
      | none =>
        simp [hg, he] at h
        subst h
        exact ⟨st, hg, he, descend_fixpoint env s st hg he env.length,
          descend_fixpoint env s st hg he⟩
      | some e =>
        simp [hg, he] at h
        exact ih e h

/-- C7 witness: in the concrete arena the chain 2 → 3 → 1 lands on leaf 1,
whose `state_entry` is null and which descent maps to itself. -/
theorem descend_idempotent_witness :
    ∃ tSt, getState envW 1 = some tSt ∧ tSt.state_entry = none ∧
      descendFull envW 1 = some 1 ∧ ∀ fuel', descend envW fuel' 1 = some 1 :=
  descend_idempotent envW 6 2 1 rfl

/-- C6: transition lookup is the first-match scan of the table in declaration
order, keeping an entry exactly when its `event_type` equals the event's type
and its guard is absent or holds; consequently an unconditional entry for the
event's type is always selected over anything after it, whatever the later
guards return. -/
theorem find_transition_order (ev : Event α) :
    (∀ ts : List (Transition α),
      find_transition ts ev = ts.find? (fun t =>
        t.event_type == ev.type &&
          match t.guard with | none => true | some g => g t.condition ev)) ∧
    (∀ (t1 : Transition α) (rest : List (Transition α)),
      t1.event_type = ev.type → t1.guard = none →
      find_transition (t1 :: rest) ev = some t1) := by
  constructor
  · intro ts
    induction ts with
    | nil => rfl
    | cons t rest ih =>
      rw [find_transition, List.find?]
      by_cases hty : t.event_type = ev.type
      · cases hgd : t.guard with
        | none => simp [hty, hgd]
        | some g =>
          by_cases hg : g t.condition ev = true
          · simp [hty, hgd, hg]
          · simp only [Bool.not_eq_true] at hg
            simp [hty, hgd, hg, ih]
      · have : (t.event_type == ev.type) = false := by
          simp [hty]
        simp [hty, this, ih]
  · intro t1 rest h1 h2
    rw [find_transition]
    simp [h1, h2]

/-- C6 witness: an unconditional entry for event type 0 placed before a
guarded entry for the same type wins both when the guard would accept
(payload 5) and when it would reject (payload 7). -/
theorem find_transition_order_witness :
    find_transition [trW01, trGuard] ⟨0, 5⟩ = some trW01 ∧
    find_transition [trW01, trGuard] ⟨0, 7⟩ = some trW01 :=
  ⟨(find_transition_order ⟨0, 5⟩).2 trW01 [trGuard] rfl rfl,
   (find_transition_order ⟨0, 7⟩).2 trW01 [trGuard] rfl rfl⟩

/-- C8: `statem_init` rejects a NULL machine with `-1` and touches nothing;
on any machine it sets current := initial state, previous := NULL,
error := error state, invokes no callback (empty trace, no entry-chain
descent), and re-running it with the same arguments is idempotent. -/
theorem statem_init_spec {α : Type} :
    (∀ i e : Option StateId, statem_init (α := α) none i e = (-1, none, [])) ∧
    (∀ (m : Machine) (i e : Option StateId),
      statem_init (α := α) (some m) i e =
        (0, some { state_current := i, state_previous := none,
                   state_error := e }, [])) ∧
    (∀ (m : Machine) (i e : Option StateId),
      statem_init (α := α) ((statem_init (α := α) (some m) i e).2.1) i e =
        statem_init (α := α) (some m) i e) :=
  ⟨fun _ _ => rfl, fun _ _ _ => rfl, fun _ _ _ => rfl⟩

/-- C9: `statem_stopped` answers `-1` on a NULL machine; on a machine whose
current state is NULL the unguarded dereference makes the call undefined
(`none` in this embedding); under the precondition that the current state is
a valid pointer it answers `transition_nums == 0`, parent ignored. -/
theorem statem_stopped_safety (env : Env α) :
    (statem_stopped env none = some (-1)) ∧
    (∀ p e : Option StateId,
      statem_stopped env (some { state_current := none, state_previous := p,
                                 state_error := e }) = none) ∧
    (∀ (m : Machine) (i : StateId) (st : State α),
      m.state_current = some i → getState env i = some st →
      statem_stopped env (some m) =
        some (if st.transitions.length = 0 then 1 else 0)) := by
  refine ⟨rfl, fun _ _ => rfl, fun m i st hc hg => ?_⟩
  rw [statem_stopped]
  simp [hc, hg]

/-- C9 witness: at state 0 (six transitions) the query answers 0; at the
childless state 1 it answers 1. -/
theorem statem_stopped_safety_witness :
    statem_stopped envW (some mW) = some 0 ∧
    statem_stopped envW (some mW1) = some 1 := by
  constructor
  · have h := (statem_stopped_safety envW).2.2 mW 0 stW0 rfl rfl
    simpa [stW0] using h
  · have h := (statem_stopped_safety envW).2.2 mW1 1 stW1 rfl rfl
    simpa [stW1] using h

/-- C3: on a machine whose current state has an empty transition table but a
non-null parent, `statem_stopped` already reports stopped (1), while
`statem_handle_event` does not stop: its lookup loop escalates the event to
the parent `p` rather than returning "no change" unconditionally. -/
theorem stopped_vs_dispatch (env : Env α) (fsm : Machine) (ev : Event α)
    (cur p : StateId) (curSt : State α)
    (hcur : fsm.state_current = some cur)
    (hget : getState env cur = some curSt)
    (hnil : curSt.transitions = [])
    (hpar : curSt.state_parent = some p) :
    statem_stopped env (some fsm) = some 1 ∧
    statem_handle_event env (some fsm) (some ev) =
      (dispatchLoop env env.length fsm cur curSt ev p).map
        (fun q : HandleResult × Machine × Trace α =>
          (q.1, some q.2.1, q.2.2)) := by
  constructor
  · rw [statem_stopped]
    simp [hcur, hget, hnil]
  · show (handle_event_core env (env.length + 1) fsm ev).map _ = _
    rw [handle_event_core]
    simp only [hcur, hget]
    rw [if_neg (by simp [hpar])]
    rw [dispatchLoop]
    simp [get_transition, hget, hnil, find_transition, hpar]

/-- C3 witness: state 1 has no transitions but parent 2; the query reports
stopped while dispatching event type 5 escalates to state 2's table and
actually changes state. -/
theorem stopped_vs_dispatch_witness :
    (statem_stopped envW (some mW1) = some 1 ∧
      statem_handle_event envW (some mW1) (some ⟨5, 7⟩) =
        (dispatchLoop envW envW.length mW1 1 stW1 ⟨5, 7⟩ 2).map
          (fun q : HandleResult × Machine × Trace Nat =>
            (q.1, some q.2.1, q.2.2))) ∧
    (statem_handle_event envW (some mW1) (some ⟨5, 7⟩)).map
        (fun p => p.1) = some HandleResult.stateChanged :=
  ⟨stopped_vs_dispatch envW mW1 ⟨5, 7⟩ 1 2 stW1 rfl rfl rfl rfl, rfl⟩

/-- C4: when the whole parent chain from the current state has no matching
enabled transition for the event, dispatch answers "no change", returns the
machine unchanged (both current and previous pointers), and fires no
callback. -/
theorem no_match_no_change (env : Env α) (fsm : Machine) (ev : Event α)
    (cur : StateId)
    (hcur : fsm.state_current = some cur)
    (hsearch : searchChain env (env.length + 1) ev cur = some none) :
    statem_handle_event env (some fsm) (some ev) =
      some (HandleResult.noChange, some fsm, []) := by
  cases hget : getState env cur with
  | none =>
    rw [searchChain] at hsearch
    simp [get_transition, hget] at hsearch
  | some curSt =>
    have h := handle_event_of_search env fsm ev cur curSt none hcur hget hsearch
    simpa using h

/-- C4 witness: event type 9 matches nothing in state 1's table nor in its
parent 2's table; the machine is returned untouched with an empty trace. -/
theorem no_match_no_change_witness :
    searchChain envW (envW.length + 1) (⟨9, 7⟩ : Event Nat) 1 = some none ∧
    statem_handle_event envW (some mW1) (some ⟨9, 7⟩) =
      some (HandleResult.noChange, some mW1, []) :=
  ⟨rfl, no_match_no_change envW mW1 ⟨9, 7⟩ 1 rfl rfl⟩

/-- C5: a matched transition whose `state_next` is null sends the machine to
the configured error state, fires the error state's entry action exactly
once when present (with the error state's data and the triggering event),
and reports "error state reached". -/
theorem null_next_goes_error (env : Env α) (fsm : Machine) (ev : Event α)
    (cur errId : StateId) (curSt errSt : State α) (t : Transition α)
    (hcur : fsm.state_current = some cur)
    (hget : getState env cur = some curSt)
    (hfind : find_transition curSt.transitions ev = some t)
    (hnext : t.state_next = none)
    (herr : fsm.state_error = some errId)
    (herrSt : getState env errId = some errSt) :
    statem_handle_event env (some fsm) (some ev) =
      some (HandleResult.errStateReached,
        some { fsm with state_previous := some cur,
                        state_current := some errId },
        if errSt.action_entry then [Call.entryCall errId errSt.data ev]
        else []) := by
  have hsearch : searchChain env (env.length + 1) ev cur =
      some (some (cur, t)) := by
    rw [searchChain]
    simp [get_transition, hget, hfind]
  have h := handle_event_of_search env fsm ev cur curSt (some (cur, t))
    hcur hget hsearch
  rw [h]
  simp only [perform_transition, hnext]
  rw [go_to_state_error]
  simp [herr, herrSt, hcur]

/-- C5 witness: from state 0, event type 3 matches the malformed transition;
the machine lands in error state 5 and its entry action fires once. -/
theorem null_next_goes_error_witness :
    statem_handle_event envW (some mW) (some ⟨3, 7⟩) =
      some (HandleResult.errStateReached,
        some { state_current := some 5, state_previous := some 0,
               state_error := some 5 },
        [Call.entryCall 5 15 ⟨3, 7⟩]) :=
  null_next_goes_error envW mW ⟨3, 7⟩ 0 5 stW0 stW5 trWbad
    rfl rfl rfl rfl rfl rfl

/-- C10: a forced transition to the error state — triggered by a NULL
current state at dispatch, or by a matched transition with a NULL
`state_next` — goes through `go_to_state_error`: no exit action, no
transition action, and no entry-chain descent ever happen; the new current
state is exactly `state_error` and the previous state is the prior current
state; the only possible callback is the error state's entry action, and it
is skipped when `state_error` is null. -/
theorem forced_error_transition (env : Env α) :
    (∀ (fsm : Machine) (ev : Event α), fsm.state_current = none →
      statem_handle_event env (some fsm) (some ev) =
        (go_to_state_error env fsm ev).map
          (fun p : Machine × Trace α =>
            (HandleResult.errStateReached, some p.1, p.2))) ∧
    (∀ (fsm : Machine) (ev : Event α) (cur : StateId) (curSt : State α)
        (t : Transition α),
      fsm.state_current = some cur → getState env cur = some curSt →
      find_transition curSt.transitions ev = some t → t.state_next = none →
      statem_handle_event env (some fsm) (some ev) =
        (go_to_state_error env fsm ev).map
          (fun p : Machine × Trace α =>
            (HandleResult.errStateReached, some p.1, p.2))) ∧
    (∀ (fsm : Machine) (ev : Event α), fsm.state_error = none →
      go_to_state_error env fsm ev =
        some ({ fsm with state_previous := fsm.state_current,
                         state_current := none }, [])) ∧
    (∀ (fsm : Machine) (ev : Event α) (i : StateId) (st : State α),
      fsm.state_error = some i → getState env i = some st →
      go_to_state_error env fsm ev =
        some ({ fsm with state_previous := fsm.state_current,
                         state_current := some i },
          if st.action_entry then [Call.entryCall i st.data ev] else [])) := by
  refine ⟨?_, ?_, ?_, ?_⟩
  · intro fsm ev hc
    show (handle_event_core env (env.length + 1) fsm ev).map _ = _
    rw [handle_event_core]
    simp only [hc]
    cases hgo : go_to_state_error env fsm ev with
    | none => simp [hgo]
    | some pr => simp [hgo]
  · intro fsm ev cur curSt t hcur hget hfind hnext
    have hsearch : searchChain env (env.length + 1) ev cur =
        some (some (cur, t)) := by
      rw [searchChain]
      simp [get_transition, hget, hfind]
    have h := handle_event_of_search env fsm ev cur curSt (some (cur, t))
      hcur hget hsearch
    rw [h]
    simp only [perform_transition, hnext]
    cases hgo : go_to_state_error env fsm ev with
    | none => simp [hgo]
    | some pr => simp [hgo]
  · intro fsm ev he
    rw [go_to_state_error]
    simp [he]
  · intro fsm ev i st he hst
    rw [go_to_state_error]
    simp [he, hst]

/-- C10 witness: a machine with a NULL current state is routed through
`go_to_state_error` (only the error entry action fires, the current state
becomes the error state 5), a machine whose match has a NULL `state_next`
likewise, and with a NULL error state the entry action is skipped. -/
theorem forced_error_transition_witness :
    (statem_handle_event envW (some mWnull) (some ⟨0, 7⟩) =
      (go_to_state_error envW mWnull ⟨0, 7⟩).map
        (fun p : Machine × Trace Nat =>
          (HandleResult.errStateReached, some p.1, p.2))) ∧
    (go_to_state_error envW mWnull ⟨0, 7⟩ =
      some ({ state_current := some 5, state_previous := none,
              state_error := some 5 }, [Call.entryCall 5 15 ⟨0, 7⟩])) ∧
    (statem_handle_event envW (some mW) (some ⟨3, 7⟩) =
      (go_to_state_error envW mW ⟨3, 7⟩).map
        (fun p : Machine × Trace Nat =>
          (HandleResult.errStateReached, some p.1, p.2))) ∧
    (go_to_state_error envW mWnoerr ⟨0, 7⟩ =
      some ({ state_current := none, state_previous := none,
              state_error := none }, [])) :=
  ⟨(forced_error_transition envW).1 mWnull ⟨0, 7⟩ rfl,
   (forced_error_transition envW).2.2.2 mWnull ⟨0, 7⟩ 5 stW5 rfl rfl,
   (forced_error_transition envW).2.1 mW ⟨3, 7⟩ 0 stW0 trWbad rfl rfl rfl rfl,
   (forced_error_transition envW).2.2.1 mWnoerr ⟨0, 7⟩ rfl⟩

/-- C1: whenever a dispatched event matches a transition `t` (found anywhere
on the parent chain from the current state `cur`) whose target resolves by
entry-chain descent to `tgt`, the emitted callback trace is exactly: the
current state's exit action (only if the resolved target differs from the
current state, and if present), then the transition's action (whenever
present, even on a self-loop, with the old current state's data and the
resolved target's data), then the target's entry action (only if the target
differs from the original current state, and if present).  In particular on
a self-loop (`tgt = cur`) entry and exit are suppressed and only the
transition action remains, exactly once. -/
theorem handle_event_callback_order (env : Env α) (fsm : Machine)
    (ev : Event α) (cur sn nxt tgt : StateId) (curSt tgtSt : State α)
    (t : Transition α)
    (hcur : fsm.state_current = some cur)
    (hget : getState env cur = some curSt)
    (hmatch : searchChain env (env.length + 1) ev cur = some (some (sn, t)))
    (hnext : t.state_next = some nxt)
    (hdesc : descendFull env nxt = some tgt)
    (htgt : getState env tgt = some tgtSt) :
    (∃ (r : HandleResult) (fsm' : Machine),
      statem_handle_event env (some fsm) (some ev) =
        some (r, some fsm',
          (if some tgt ≠ some cur ∧ curSt.action_exti then
            [Call.exitCall cur curSt.data ev] else [])
          ++ (if t.action then
            [Call.actionCall curSt.data ev tgtSt.data] else [])
          ++ (if some tgt ≠ some cur ∧ tgtSt.action_entry then
            [Call.entryCall tgt tgtSt.data ev] else []))) ∧
    (tgt = cur →
      ((if some tgt ≠ some cur ∧ curSt.action_exti then
          [Call.exitCall cur curSt.data ev] else [])
        ++ (if t.action then
          [Call.actionCall curSt.data ev tgtSt.data] else [])
        ++ (if some tgt ≠ some cur ∧ tgtSt.action_entry then
          [Call.entryCall tgt tgtSt.data ev] else [])) =
        (if t.action then [Call.actionCall curSt.data ev tgtSt.data]
          else [])) := by
  constructor
  · have h := handle_event_of_search env fsm ev cur curSt (some (sn, t))
      hcur hget hmatch
    rw [h]
    simp only [perform_transition, hnext, hdesc, htgt, hcur]
    split
    · exact ⟨_, _, rfl⟩
    · split
      · exact ⟨_, _, rfl⟩
      · split
        · exact ⟨_, _, rfl⟩
        · exact ⟨_, _, rfl⟩
  · intro heq
    subst heq
    simp

/-- C1 witness: event type 0 from state 0 transitions to state 1 emitting
exit(0), transition action, entry(1) in that order; event type 1 is a
self-loop from state 0 emitting the transition action only. -/
theorem handle_event_callback_order_witness :
    (∃ (r : HandleResult) (fsm' : Machine),
      statem_handle_event envW (some mW) (some ⟨0, 7⟩) =
        some (r, some fsm',
          [Call.exitCall 0 10 ⟨0, 7⟩, Call.actionCall 10 ⟨0, 7⟩ 11,
           Call.entryCall 1 11 ⟨0, 7⟩])) ∧
    (∃ (r : HandleResult) (fsm' : Machine),
      statem_handle_event envW (some mW) (some ⟨1, 7⟩) =
        some (r, some fsm', [Call.actionCall 10 ⟨1, 7⟩ 10])) :=
  ⟨(handle_event_callback_order envW mW ⟨0, 7⟩ 0 0 1 1 stW0 stW1 trW01
      rfl rfl rfl rfl rfl rfl).1,
   (handle_event_callback_order envW mW ⟨1, 7⟩ 0 0 0 0 stW0 stW0 trW00
      rfl rfl rfl rfl rfl rfl).1⟩

/-- C2 counterexample: from state 0, event type 6 transitions to state 5,
which is terminal (empty transition table, no parent) — yet the dispatch
reports "error state reached", not "final state reached", because state 5 is
the configured error state and that check has priority over the final-state
check. -/
theorem handle_event_terminal_error_cex :
    getState envW 5 = some stW5 ∧
    stW5.transitions.length = 0 ∧ stW5.state_parent = none ∧
    mW.state_error = some 5 ∧
    statem_handle_event envW (some mW) (some ⟨6, 7⟩) =
      some (HandleResult.errStateReached,
        some { state_current := some 5, state_previous := some 0,
               state_error := some 5 },
        [Call.exitCall 0 10 ⟨6, 7⟩, Call.entryCall 5 15 ⟨6, 7⟩]) ∧
    HandleResult.errStateReached ≠ HandleResult.finalStateReached :=
  ⟨rfl, rfl, rfl, rfl, rfl, by decide⟩

/-- C2 (amended): successful transitions are classified with this priority:
a resolved target equal to the prior current state returns "loop-self"; a
terminal target (empty transition table and no parent) that is not the
configured error state returns "final state reached" on the transition that
produces it (a terminal target equal to the error state returns "error state
reached" instead); and any event dispatched while the machine sits in a
terminal state — including a terminal error state — returns "no change"
with no callbacks fired and the machine untouched. -/
theorem handle_event_classification (env : Env α) :
    (∀ (fsm : Machine) (ev : Event α) (cur sn nxt tgt : StateId)
        (curSt tgtSt : State α) (t : Transition α),
      fsm.state_current = some cur → getState env cur = some curSt →
      searchChain env (env.length + 1) ev cur = some (some (sn, t)) →
      t.state_next = some nxt → descendFull env nxt = some tgt →
      getState env tgt = some tgtSt → tgt = cur →
      ∃ (fsm' : Machine) (tr : Trace α),
        statem_handle_event env (some fsm) (some ev) =
          some (HandleResult.loopSelf, some fsm', tr)) ∧
    (∀ (fsm : Machine) (ev : Event α) (cur sn nxt tgt : StateId)
        (curSt tgtSt : State α) (t : Transition α),
      fsm.state_current = some cur → getState env cur = some curSt →
      searchChain env (env.length + 1) ev cur = some (some (sn, t)) →
      t.state_next = some nxt → descendFull env nxt = some tgt →
      getState env tgt = some tgtSt → tgt ≠ cur →
      some tgt ≠ fsm.state_error →
      tgtSt.transitions.length = 0 → tgtSt.state_parent = none →
      ∃ (fsm' : Machine) (tr : Trace α),
        statem_handle_event env (some fsm) (some ev) =
          some (HandleResult.finalStateReached, some fsm', tr)) ∧
    (∀ (fsm : Machine) (ev : Event α) (cur : StateId) (curSt : State α),
      fsm.state_current = some cur → getState env cur = some curSt →
      curSt.transitions = [] → curSt.state_parent = none →
      statem_handle_event env (some fsm) (some ev) =
        some (HandleResult.noChange, some fsm, [])) := by
  refine ⟨?_, ?_, ?_⟩
  · intro fsm ev cur sn nxt tgt curSt tgtSt t hcur hget hmatch hnext hdesc
      htgt heq
    have h := handle_event_of_search env fsm ev cur curSt (some (sn, t))
      hcur hget hmatch
    rw [h]
    simp only [perform_transition, hnext, hdesc, htgt, hcur]
    rw [if_pos (by simp [heq])]
    exact ⟨_, _, rfl⟩
  · intro fsm ev cur sn nxt tgt curSt tgtSt t hcur hget hmatch hnext hdesc
      htgt hne herrne hlen hpar
    have h := handle_event_of_search env fsm ev cur curSt (some (sn, t))
      hcur hget hmatch
    rw [h]
    simp only [perform_transition, hnext, hdesc, htgt, hcur]
    rw [if_neg (by simp [hne]), if_neg (by simpa using herrne),
      if_pos ⟨hlen, hpar⟩]
    exact ⟨_, _, rfl⟩
  · intro fsm ev cur curSt hcur hget hnil hpar
    show (handle_event_core env (env.length + 1) fsm ev).map _ = _
    rw [handle_event_core]
    simp [hcur, hget, hnil, hpar]

/-- C2 witness: event type 1 from state 0 is a self-loop ("loop-self");
event type 4 reaches the terminal non-error state 4 ("final state
reached"); an event dispatched while sitting in the terminal error state 5
returns "no change" with no callbacks. -/
theorem handle_event_classification_witness :
    (∃ (fsm' : Machine) (tr : Trace Nat),
      statem_handle_event envW (some mW) (some ⟨1, 7⟩) =
        some (HandleResult.loopSelf, some fsm', tr)) ∧
    (∃ (fsm' : Machine) (tr : Trace Nat),
      statem_handle_event envW (some mW) (some ⟨4, 7⟩) =
        some (HandleResult.finalStateReached, some fsm', tr)) ∧
    statem_handle_event envW (some mW5) (some ⟨0, 7⟩) =
      some (HandleResult.noChange, some mW5, []) :=
  ⟨(handle_event_classification envW).1 mW ⟨1, 7⟩ 0 0 0 0 stW0 stW0 trW00
      rfl rfl rfl rfl rfl rfl rfl,
   (handle_event_classification envW).2.1 mW ⟨4, 7⟩ 0 0 4 4 stW0 stW4 trW04
      rfl rfl rfl rfl rfl rfl (by decide) (by decide) rfl rfl,
   (handle_event_classification envW).2.2 mW5 ⟨0, 7⟩ 5 stW5 rfl rfl rfl rfl⟩

end StateMachine
